import Mathlib

/-!
Verification development for the ctf-packet-relay repository.

The Rust sources are shallowly embedded here:
* `src/packet/magic.rs` and `src/packet/codec.rs` — the CTF packet framer
  (`CtfPacketCodec::decode`, `props_to_index`, `pkt_size`,
  `get_required_fields`),
* `src/packet_publisher.rs` — the stream-id router,
* `src/relayd/mod.rs` and `src/relayd/wire.rs` — the relayd client
  state for data streams and the wire encoders,
* `src/main.rs` — `StreamMapping::from_str` configuration parsing.

Byte buffers are modelled as `List Nat`; `u64` arithmetic that can
overflow is made explicit (saturating add holds values at `2 ^ 64 - 1`).
The external babeltrace packet-header decoder is an opaque parameter
(`List Nat → DecoderResult`), mirroring how `CtfPacketCodec::decode`
consumes `self.dec.packet_properties`.
-/

/-- Largest value of a Rust `u64`; used both as the saturation bound and as
the on-wire sentinel for absent optional index fields. -/
def U64_MAX : Nat := 2 ^ 64 - 1

/-! ## Packet framer: `src/packet/magic.rs` and `src/packet/codec.rs` -/

/-- `CtfPacketMagic::MAGIC` from `src/packet/magic.rs`. -/
def MAGIC : List Nat := [0xC1, 0x1F, 0xFC, 0xC1]

/-- `CtfPacketMagic::check_magic` from `src/packet/magic.rs`:
the input has at least 4 bytes and its first 4 bytes are the magic. -/
def check_magic (input : List Nat) : Bool :=
  decide (4 ≤ input.length) && decide (input.take 4 = MAGIC)

/-- The scan loop at the top of `CtfPacketCodec::decode`: the first index
`idx` in `0..src.len()` with `check_magic(&src[idx..])`, if any. -/
def findMagicIdx : List Nat → Option Nat
  | [] => none
  | b :: rest =>
    if check_magic (b :: rest) then some 0
    else (findMagicIdx rest).map (· + 1)

/-- `babeltrace2_sys::PacketProperties`, the record returned by the external
CTF packet-header decoder (all fields optional, as consumed by
`src/packet/codec.rs`). -/
structure PacketProperties where
  packet_total_size_bits : Option Nat
  packet_content_size_bits : Option Nat
  beginning_clock : Option Nat
  end_clock : Option Nat
  stream_class_id : Option Nat
  data_stream_id : Option Nat
  packet_seq_num : Option Nat
  discarded_events : Option Nat
deriving DecidableEq

/-- `OptionalIndexField`'s `From<Option<u64>>` impl in `src/relayd/wire.rs`:
absent fields are encoded as `u64::MAX`. -/
def optField : Option Nat → Nat
  | some v => v
  | none => U64_MAX

/-- `Index` from `src/relayd/wire.rs`. `packet_size_bits` is `NonZeroU64`
in the source; positivity is proved as an invariant rather than baked in. -/
structure Index where
  packet_size_bits : Nat
  content_size_bits : Nat
  timestamp_begin : Nat
  timestamp_end : Nat
  events_discarded : Nat
  stream_id : Nat
  stream_instance_id : Nat
  packet_seq_num : Nat
deriving DecidableEq

/-- `CtfPacket` from `src/packet/mod.rs`. -/
structure CtfPacket where
  index : Index
  packet : List Nat
deriving DecidableEq

/-- `RequiredFields` from `src/packet/codec.rs`. -/
structure RequiredFields where
  packet_content_size_bits : Nat
  timestamp_begin : Nat
  timestamp_end : Nat
  stream_id : Nat
deriving DecidableEq

/-- `pkt_size` from `src/packet/codec.rs`: requires a present, non-zero
`packet_total_size_bits` and derives the byte count as `size_bits >> 3`. -/
def pkt_size (p : PacketProperties) : Option (Nat × Nat) :=
  match p.packet_total_size_bits with
  | some size_bits =>
    if size_bits = 0 then none else some (size_bits, size_bits >>> 3)
  | none => none

/-- `get_required_fields` from `src/packet/codec.rs`: the four header fields
lttng relayd indices require. -/
def get_required_fields (p : PacketProperties) : Option RequiredFields :=
  match p.packet_content_size_bits, p.beginning_clock,
        p.end_clock, p.stream_class_id with
  | some c, some tb, some te, some sid =>
    some { packet_content_size_bits := c, timestamp_begin := tb,
           timestamp_end := te, stream_id := sid }
  | _, _, _, _ => none

/-- `props_to_index` from `src/packet/codec.rs`. Returns the buffer left in
`src` after the call, paired with the emitted index/payload (if any). -/
def props_to_index (p : PacketProperties) (src : List Nat) :
    List Nat × Option (Index × List Nat) :=
  match pkt_size p with
  | none => ([], none)
  | some (packet_total_size_bits, packet_total_size_bytes) =>
    if src.length < packet_total_size_bytes then (src, none)
    else
      match get_required_fields p with
      | none => (src.drop packet_total_size_bytes, none)
      | some fields =>
        (src.drop packet_total_size_bytes,
         some
           ({ packet_size_bits := packet_total_size_bits,
              content_size_bits := fields.packet_content_size_bits,
              timestamp_begin := fields.timestamp_begin,
              timestamp_end := fields.timestamp_end,
              events_discarded := optField p.discarded_events,
              stream_id := fields.stream_id,
              stream_instance_id := optField p.data_stream_id,
              packet_seq_num := optField p.packet_seq_num },
            src.take packet_total_size_bytes))

/-- `props_to_packet` from `src/packet/codec.rs`. -/
def props_to_packet (p : PacketProperties) (src : List Nat) :
    List Nat × Option CtfPacket :=
  let r := props_to_index p src
  (r.1, r.2.map fun ip => { index := ip.1, packet := ip.2 })

/-- Result of `PacketDecoder::packet_properties`: an error (treated by the
framer as a short header), `Ok(None)`, or `Ok(Some(props))`. -/
inductive DecoderResult where
  | err
  | needMore
  | props (p : PacketProperties)

/-- The part of `CtfPacketCodec::decode` that runs after the junk-prefix
discard, on a buffer whose first occurrence of magic is at position 0. -/
def headerPhase (dec : List Nat → DecoderResult) (buf : List Nat) :
    List Nat × Option CtfPacket :=
  match dec buf with
  | .err => (buf, none)
  | .needMore => (buf, none)
  | .props p => props_to_packet p buf

/-- `CtfPacketCodec::decode` from `src/packet/codec.rs`, with the external
header decoder passed as `dec`. Returns the buffer contents after the call
and the emitted packet, if any. -/
def decode (dec : List Nat → DecoderResult) (src : List Nat) :
    List Nat × Option CtfPacket :=
  match findMagicIdx src with
  | none => (src, none)
  | some idx => headerPhase dec (src.drop idx)

/-! ## Lemmas about the magic scan -/

/-- The magic occurs in `src` at position `i`: at least 4 bytes remain
there and they start with the magic bytes. -/
def occursAt (src : List Nat) (i : Nat) : Prop :=
  i + 4 ≤ src.length ∧ (src.drop i).take 4 = MAGIC

instance (src : List Nat) (i : Nat) : Decidable (occursAt src i) := by
  unfold occursAt; infer_instance

theorem check_magic_iff (s : List Nat) :
    check_magic s = true ↔ 4 ≤ s.length ∧ s.take 4 = MAGIC := by
  simp [check_magic]

theorem occursAt_iff_check (src : List Nat) (i : Nat) :
    occursAt src i ↔ check_magic (src.drop i) = true := by
  rw [check_magic_iff, occursAt, List.length_drop]
  constructor
  · rintro ⟨h1, h2⟩; exact ⟨by omega, h2⟩
  · rintro ⟨h1, h2⟩; exact ⟨by omega, h2⟩

theorem findMagicIdx_none (src : List Nat)
    (h : ∀ i, check_magic (src.drop i) = false) : findMagicIdx src = none := by
  induction src with
  | nil => rfl
  | cons b rest ih =>
    have h0 := h 0
    simp only [List.drop] at h0
    rw [findMagicIdx, h0]
    simp only [if_false, Bool.false_eq_true]
    rw [ih (fun i => h (i + 1))]
    rfl

theorem findMagicIdx_first (src : List Nat) (i : Nat)
    (h1 : check_magic (src.drop i) = true)
    (h2 : ∀ j, j < i → check_magic (src.drop j) = false) :
    findMagicIdx src = some i := by
  induction src generalizing i with
  | nil =>
    simp only [List.drop_nil] at h1
    simp [check_magic] at h1
  | cons b rest ih =>
    cases i with
    | zero =>
      simp only [List.drop] at h1
      rw [findMagicIdx, h1]
      simp
    | succ k =>
      have hb := h2 0 (Nat.succ_pos k)
      simp only [List.drop] at hb
      rw [findMagicIdx, hb]
      simp only [if_false, Bool.false_eq_true]
      have := ih k h1 (fun j hj => h2 (j + 1) (by omega))
      rw [this]
      rfl

theorem findMagicIdx_zero (src : List Nat) (hm : check_magic src = true) :
    findMagicIdx src = some 0 := by
  rcases src with _ | ⟨b, rest⟩
  · simp [check_magic] at hm
  · simp [findMagicIdx, hm]

theorem get_required_fields_none (p : PacketProperties)
    (hmiss : p.packet_content_size_bits = none ∨ p.beginning_clock = none ∨
      p.end_clock = none ∨ p.stream_class_id = none) :
    get_required_fields p = none := by
  unfold get_required_fields
  rcases hc : p.packet_content_size_bits with _ | c <;>
    rcases htb : p.beginning_clock with _ | tb <;>
      rcases hte : p.end_clock with _ | te <;>
        rcases hsid : p.stream_class_id with _ | sid <;>
          simp_all

theorem props_to_index_some (p : PacketProperties) (src buf : List Nat)
    (idx : Index) (pl : List Nat)
    (h : props_to_index p src = (buf, some (idx, pl))) :
    ∃ sb c tb te sid,
      p.packet_total_size_bits = some sb ∧ sb ≠ 0 ∧
      ¬ src.length < sb >>> 3 ∧
      p.packet_content_size_bits = some c ∧ p.beginning_clock = some tb ∧
      p.end_clock = some te ∧ p.stream_class_id = some sid ∧
      buf = src.drop (sb >>> 3) ∧ pl = src.take (sb >>> 3) ∧
      idx = { packet_size_bits := sb, content_size_bits := c,
              timestamp_begin := tb, timestamp_end := te,
              events_discarded := optField p.discarded_events,
              stream_id := sid,
              stream_instance_id := optField p.data_stream_id,
              packet_seq_num := optField p.packet_seq_num } := by
  unfold props_to_index pkt_size at h
  rcases hts : p.packet_total_size_bits with _ | sb <;> simp only [hts] at h
  · simp at h
  by_cases hz : sb = 0
  · simp only [if_pos hz] at h; simp at h
  simp only [if_neg hz] at h
  by_cases hlen : src.length < sb >>> 3
  · simp only [if_pos hlen] at h; simp at h
  simp only [if_neg hlen] at h
  rcases hc : p.packet_content_size_bits with _ | c <;>
    rcases htb : p.beginning_clock with _ | tb <;>
      rcases hte : p.end_clock with _ | te <;>
        rcases hsid : p.stream_class_id with _ | sid <;>
          simp only [get_required_fields, hc, htb, hte, hsid,
            Prod.mk.injEq, Option.some.injEq] at h <;>
            try exact Option.noConfusion h.2
  obtain ⟨h1, h4, h5⟩ := h
  exact ⟨sb, c, tb, te, sid, rfl, hz, hlen, rfl, rfl, rfl, rfl,
    h1.symm, h5.symm, h4.symm⟩

/-! ## Claim theorems for the framer -/

/-- C1: for every input buffer and every decoder result, if the framer's
`decode` emits a `CtfPacket` then its payload length in bytes equals the
index's `packet_size_bits / 8`, the `packet_size_bits` is strictly
positive, and all four required index fields (`content_size`,
`timestamp_begin`, `timestamp_end`, `stream_id`) were present in the
decoded header properties (and equal the emitted index's fields). -/
theorem C1_no_partial_packet (dec : List Nat → DecoderResult)
    (src buf : List Nat) (pkt : CtfPacket)
    (h : decode dec src = (buf, some pkt)) :
    pkt.packet.length = pkt.index.packet_size_bits / 8 ∧
    0 < pkt.index.packet_size_bits ∧
    ∃ i p, findMagicIdx src = some i ∧ dec (src.drop i) = .props p ∧
      p.packet_total_size_bits = some pkt.index.packet_size_bits ∧
      p.packet_content_size_bits = some pkt.index.content_size_bits ∧
      p.beginning_clock = some pkt.index.timestamp_begin ∧
      p.end_clock = some pkt.index.timestamp_end ∧
      p.stream_class_id = some pkt.index.stream_id := by
  unfold decode at h
  rcases hf : findMagicIdx src with _ | i <;> simp only [hf] at h
  · simp at h
  unfold headerPhase at h
  rcases hd : dec (src.drop i) with _ | _ | p <;> simp only [hd] at h
  · simp at h
  · simp at h
  unfold props_to_packet at h
  simp only [Prod.mk.injEq, Option.map_eq_some'] at h
  obtain ⟨h1, ⟨⟨idx, pl⟩, hpi, hpk⟩⟩ := h
  have hchar := props_to_index_some p (src.drop i) buf idx pl
    (Prod.ext h1 hpi)
  obtain ⟨sb, c, tb, te, sid, hts, hz, hlen, hc, htb, hte, hsid,
    _, hpl, hidx⟩ := hchar
  subst hpk
  subst hidx
  have hdiv : sb >>> 3 = sb / 8 := by
    rw [Nat.shiftRight_eq_div_pow]
  refine ⟨?_, Nat.pos_of_ne_zero hz, i, p, ?_, ?_, hts, hc, htb, hte, hsid⟩
  · show pl.length = sb / 8
    rw [hpl, List.length_take, hdiv]
    rw [hdiv] at hlen
    omega
  · rfl
  · exact hd

def propsGood : PacketProperties :=
  { packet_total_size_bits := some 32, packet_content_size_bits := some 24,
    beginning_clock := some 100, end_clock := some 200,
    stream_class_id := some 7, data_stream_id := none,
    packet_seq_num := none, discarded_events := none }

def decGood : List Nat → DecoderResult := fun _ => .props propsGood

def srcGood : List Nat := MAGIC ++ [1, 2, 3, 4]

def pktGood : CtfPacket :=
  { index := { packet_size_bits := 32, content_size_bits := 24,
               timestamp_begin := 100, timestamp_end := 200,
               events_discarded := U64_MAX, stream_id := 7,
               stream_instance_id := U64_MAX, packet_seq_num := U64_MAX },
    packet := MAGIC }

/-- Witness for C1 at a concrete emitted packet. -/
theorem C1_no_partial_packet_witness :
    pktGood.packet.length = pktGood.index.packet_size_bits / 8 ∧
    0 < pktGood.index.packet_size_bits ∧
    ∃ i p, findMagicIdx srcGood = some i ∧
      decGood (srcGood.drop i) = .props p ∧
      p.packet_total_size_bits = some pktGood.index.packet_size_bits ∧
      p.packet_content_size_bits = some pktGood.index.content_size_bits ∧
      p.beginning_clock = some pktGood.index.timestamp_begin ∧
      p.end_clock = some pktGood.index.timestamp_end ∧
      p.stream_class_id = some pktGood.index.stream_id :=
  C1_no_partial_packet decGood srcGood [1, 2, 3, 4] pktGood (by decide)

/-- C2: the framer discards exactly the bytes before the first occurrence
of the magic; the rest of `decode` then runs on the buffer starting at the
magic. If the magic occurs nowhere in the buffer, `decode` yields no
packet and leaves the buffer unchanged (waits for more input). -/
theorem C2_magic_resync (src : List Nat) :
    ((∀ i, ¬ occursAt src i) → ∀ dec, decode dec src = (src, none)) ∧
    (∀ i, occursAt src i → (∀ j, j < i → ¬ occursAt src j) →
      ∀ dec, decode dec src = headerPhase dec (src.drop i)) := by
  constructor
  · intro h dec
    have hn : findMagicIdx src = none := findMagicIdx_none src (fun i => by
      have := h i
      rw [occursAt_iff_check] at this
      simpa using this)
    unfold decode
    rw [hn]
  · intro i hi hmin dec
    have hf : findMagicIdx src = some i :=
      findMagicIdx_first src i ((occursAt_iff_check src i).mp hi)
        (fun j hj => by
          have := hmin j hj
          rw [occursAt_iff_check] at this
          simpa using this)
    unfold decode
    rw [hf]

def decNeedMore : List Nat → DecoderResult := fun _ => .needMore

/-- Witness for C2: a 2-byte junk prefix is discarded; a buffer without
magic is left alone. -/
theorem C2_magic_resync_witness :
    decode decNeedMore ([7, 8] ++ MAGIC ++ [9]) =
      headerPhase decNeedMore (([7, 8] ++ MAGIC ++ [9]).drop 2) ∧
    decode decNeedMore [1, 2, 3] = ([1, 2, 3], none) :=
  ⟨(C2_magic_resync ([7, 8] ++ MAGIC ++ [9])).2 2 (by decide) (by decide)
      decNeedMore,
   (C2_magic_resync [1, 2, 3]).1
      (fun i h => by
        have h4 : i + 4 ≤ 3 := h.1
        omega)
      decNeedMore⟩

/-- C5: with the magic at buffer position 0, if the header decoder returns
properties without `packet_total_size_bits`, the framer clears the entire
buffer and emits no packet. -/
theorem C5_missing_packet_size_drops_buffer (dec : List Nat → DecoderResult)
    (src : List Nat) (p : PacketProperties)
    (hm : check_magic src = true)
    (hd : dec src = .props p)
    (hs : p.packet_total_size_bits = none) :
    decode dec src = ([], none) := by
  unfold decode
  simp only [findMagicIdx_zero src hm]
  unfold headerPhase
  simp only [List.drop_zero, hd]
  unfold props_to_packet props_to_index pkt_size
  simp [hs]

def propsNoSize : PacketProperties :=
  { packet_total_size_bits := none, packet_content_size_bits := some 1,
    beginning_clock := some 2, end_clock := some 3,
    stream_class_id := some 4, data_stream_id := none,
    packet_seq_num := none, discarded_events := none }

def decNoSize : List Nat → DecoderResult := fun _ => .props propsNoSize

/-- Witness for C5 on a concrete buffer. -/
theorem C5_missing_packet_size_drops_buffer_witness :
    decode decNoSize (MAGIC ++ [1, 2]) = ([], none) :=
  C5_missing_packet_size_drops_buffer decNoSize (MAGIC ++ [1, 2])
    propsNoSize (by decide) rfl rfl

def propsZeroSize : PacketProperties :=
  { packet_total_size_bits := some 0, packet_content_size_bits := some 1,
    beginning_clock := some 2, end_clock := some 3,
    stream_class_id := some 4, data_stream_id := none,
    packet_seq_num := none, discarded_events := none }

def decZeroSize : List Nat → DecoderResult := fun _ => .props propsZeroSize

def srcZeroSize : List Nat := MAGIC ++ [0xAA]

/-- C6 counterexample: with `packet_total_size_bits = 0` reported for a
buffer with magic at position 0 and one extra byte, the claim says the
framer removes nothing (beyond the empty junk prefix), i.e. the result
would be `(srcZeroSize, none)`. In fact `pkt_size` rejects the zero size,
`props_to_index` falls into the missing-size branch and clears the entire
buffer. -/
theorem C6_counterexample :
    decode decZeroSize srcZeroSize ≠ (srcZeroSize, none) ∧
    decode decZeroSize srcZeroSize = ([], none) := by
  constructor
  · decide
  · decide

/-- C6 (amended): when the header decoder reports
`packet_total_size_bits = 0`, the framer emits no packet and drops the
entire buffer contents — the same handling as a missing
`packet_total_size_bits` — rather than leaving the bytes in place. -/
theorem C6_zero_size_clears_buffer (dec : List Nat → DecoderResult)
    (src : List Nat) (p : PacketProperties) (i : Nat)
    (hf : findMagicIdx src = some i)
    (hd : dec (src.drop i) = .props p)
    (hz : p.packet_total_size_bits = some 0) :
    decode dec src = ([], none) := by
  unfold decode
  simp only [hf]
  unfold headerPhase
  simp only [hd]
  unfold props_to_packet props_to_index pkt_size
  simp [hz]

/-- Witness for the amended C6 on a concrete buffer. -/
theorem C6_zero_size_clears_buffer_witness :
    decode decZeroSize srcZeroSize = ([], none) :=
  C6_zero_size_clears_buffer decZeroSize srcZeroSize propsZeroSize 0
    (by decide) rfl rfl

/-- C7: with magic at position 0 and a present, non-zero
`packet_total_size_bits`: if some required index field is absent and the
buffer holds at least `packet_total_size_bits / 8` bytes, the framer drops
exactly that many bytes from the front and emits nothing; if the buffer
holds fewer bytes, it removes nothing and emits nothing. -/
theorem C7_missing_fields_skip (dec : List Nat → DecoderResult)
    (src : List Nat) (p : PacketProperties) (bits : Nat)
    (hm : check_magic src = true)
    (hd : dec src = .props p)
    (ht : p.packet_total_size_bits = some bits)
    (hnz : bits ≠ 0)
    (hmiss : p.packet_content_size_bits = none ∨ p.beginning_clock = none ∨
      p.end_clock = none ∨ p.stream_class_id = none) :
    (bits / 8 ≤ src.length →
      decode dec src = (src.drop (bits / 8), none)) ∧
    (src.length < bits / 8 → decode dec src = (src, none)) := by
  have hdiv : bits >>> 3 = bits / 8 := by
    rw [Nat.shiftRight_eq_div_pow]
  have hrf := get_required_fields_none p hmiss
  unfold decode
  simp only [findMagicIdx_zero src hm]
  unfold headerPhase
  simp only [List.drop_zero, hd]
  unfold props_to_packet props_to_index pkt_size
  simp only [ht, if_neg hnz, hrf, hdiv]
  constructor
  · intro hle
    rw [if_neg (by omega)]
    simp
  · intro hlt
    rw [if_pos hlt]
    simp

def propsMissingFields : PacketProperties :=
  { packet_total_size_bits := some 32, packet_content_size_bits := none,
    beginning_clock := some 2, end_clock := some 3,
    stream_class_id := some 4, data_stream_id := none,
    packet_seq_num := none, discarded_events := none }

def decMissingFields : List Nat → DecoderResult :=
  fun _ => .props propsMissingFields

/-- Witness for C7: a 32-bit (4-byte) packet whose `content_size` is
missing; with 6 bytes buffered exactly 4 are dropped, with 3 bytes
buffered nothing happens. -/
theorem C7_missing_fields_skip_witness :
    (decode decMissingFields (MAGIC ++ [5, 6]) =
      ((MAGIC ++ [5, 6]).drop (32 / 8), none)) ∧
    (decode decMissingFields [0xC1, 0x1F, 0xFC] = ([0xC1, 0x1F, 0xFC], none)) :=
  ⟨(C7_missing_fields_skip decMissingFields (MAGIC ++ [5, 6])
      propsMissingFields 32 (by decide) rfl rfl (by decide)
      (Or.inl rfl)).1 (by decide),
   by decide⟩

/-! ## Router: `src/packet_publisher.rs` -/

/-- `PacketPublisherConfig` from `src/packet_publisher.rs`; the
`BTreeSet<u64>` of stream ids is a list of ids (only emptiness and
membership are consulted) and `sender` is the channel handle, abstracted
to an arbitrary tag type. -/
structure PacketPublisherConfig (α : Type) where
  stream_ids : List Nat
  sender : α
deriving DecidableEq

/-- `PacketPublisherConfig::sender` from `src/packet_publisher.rs`:
empty set means all ids are accepted on this channel. -/
def PacketPublisherConfig.senderFor {α : Type}
    (c : PacketPublisherConfig α) (stream_id : Nat) : Option α :=
  if c.stream_ids.isEmpty || c.stream_ids.contains stream_id then
    some c.sender
  else none

/-- The routing expression in `run_packet_publisher`
(`channel_configs.iter().find_map(|c| c.sender(pkt.index.stream_id))`):
the sender of the first configuration accepting the stream id, if any. -/
def route {α : Type} (channel_configs : List (PacketPublisherConfig α))
    (stream_id : Nat) : Option α :=
  channel_configs.findSome? (fun c => c.senderFor stream_id)

/-- The match condition of `PacketPublisherConfig::sender` in isolation. -/
def cfgMatches {α : Type} (c : PacketPublisherConfig α)
    (stream_id : Nat) : Bool :=
  c.stream_ids.isEmpty || c.stream_ids.contains stream_id

theorem senderFor_eq_match {α : Type} (c : PacketPublisherConfig α)
    (stream_id : Nat) :
    c.senderFor stream_id =
      if cfgMatches c stream_id then some c.sender else none := rfl

theorem route_cons {α : Type} (c : PacketPublisherConfig α)
    (rest : List (PacketPublisherConfig α)) (stream_id : Nat) :
    route (c :: rest) stream_id =
      if cfgMatches c stream_id then some c.sender
      else route rest stream_id := by
  unfold route
  simp only [List.findSome?_cons]
  rw [senderFor_eq_match]
  by_cases h : cfgMatches c stream_id
  · simp [h]
  · simp [h]

/-- C3: the router delivers a packet to exactly the sender of the first
configuration, in declaration order, whose `stream_ids` set is empty or
contains the packet's `index.stream_id`: splitting the configuration list
as `before ++ matching :: after` with every earlier configuration failing
the match, `route` returns that configuration's sender. When no
configuration matches, `route` yields no sender and the packet is
dropped. `route` returns an `Option`, so at most one pipeline ever
receives the packet. -/
theorem C3_router_first_match {α : Type}
    (channel_configs : List (PacketPublisherConfig α)) (stream_id : Nat) :
    (∀ before (c : PacketPublisherConfig α) after,
      channel_configs = before ++ c :: after →
      cfgMatches c stream_id = true →
      (∀ b ∈ before, cfgMatches b stream_id = false) →
      route channel_configs stream_id = some c.sender) ∧
    ((∀ c ∈ channel_configs, cfgMatches c stream_id = false) →
      route channel_configs stream_id = none) := by
  constructor
  · intro before c after heq hc hb
    subst heq
    induction before with
    | nil =>
      rw [List.nil_append, route_cons, if_pos hc]
    | cons b bs ih =>
      rw [List.cons_append, route_cons,
        if_neg (by simp [hb b (by simp)])]
      exact ih (fun x hx => hb x (by simp [hx]))
  · intro hnone
    induction channel_configs with
    | nil => rfl
    | cons c rest ih =>
      rw [route_cons, if_neg (by simp [hnone c (by simp)])]
      exact ih (fun d hd => hnone d (by simp [hd]))

/-- Witness for C3: with configurations `[{5} ↦ 10, ∅ ↦ 20]`, a packet on
stream 7 skips the first and is delivered to the wildcard; with only the
first configuration it is dropped. -/
theorem C3_router_first_match_witness :
    route [⟨[5], 10⟩, ⟨[], 20⟩] 7 = some 20 ∧
    route [(⟨[5], 10⟩ : PacketPublisherConfig Nat)] 7 = none :=
  ⟨(C3_router_first_match [⟨[5], 10⟩, ⟨[], 20⟩] 7).1
      [⟨[5], 10⟩] ⟨[], 20⟩ [] rfl (by decide) (by decide),
   (C3_router_first_match [(⟨[5], 10⟩ : PacketPublisherConfig Nat)] 7).2
      (by decide)⟩

/-! ## relayd wire protocol: `src/relayd/wire.rs` -/

/-- Big-endian byte encoding of a `u32` (`AsyncWriteExt::write_u32`). -/
def u32be (n : Nat) : List Nat :=
  [n / 2 ^ 24 % 256, n / 2 ^ 16 % 256, n / 2 ^ 8 % 256, n % 256]

/-- Big-endian byte encoding of a `u64` (`AsyncWriteExt::write_u64`). -/
def u64be (n : Nat) : List Nat :=
  [n / 2 ^ 56 % 256, n / 2 ^ 48 % 256, n / 2 ^ 40 % 256, n / 2 ^ 32 % 256,
   n / 2 ^ 24 % 256, n / 2 ^ 16 % 256, n / 2 ^ 8 % 256, n % 256]

/-- `Command` from `src/relayd/wire.rs` with its wire codes. -/
inductive Command where
  | AddStream
  | CreateSession
  | StartData
  | Version
  | SendMetadata
  | CloseStream
  | SendIndex
  | StreamsSent
deriving DecidableEq

/-- `Command::into_wire` (the discriminant values of the Rust enum). -/
def Command.into_wire : Command → Nat
  | .AddStream => 1
  | .CreateSession => 2
  | .StartData => 3
  | .Version => 5
  | .SendMetadata => 6
  | .CloseStream => 7
  | .SendIndex => 13
  | .StreamsSent => 16

/-- `ControlHeader::write` from `src/relayd/wire.rs`: the 24 bytes written
for a control header (circuit id 0, data size, command, cmd version 0). -/
def ControlHeader.write (cmd : Command) (data_size : Nat) : List Nat :=
  u64be 0 ++ u64be data_size ++ u32be cmd.into_wire ++ u32be 0

/-- `DataHeader::write` from `src/relayd/wire.rs`: the 28 bytes written
for a data header. -/
def DataHeader.write (stream_id net_seq_num data_size : Nat) : List Nat :=
  u64be 0 ++ u64be stream_id ++ u64be net_seq_num ++ u32be data_size ++
    u32be 0

/-- `SendIndex::WIRE_SIZE` from `src/relayd/wire.rs` (ten `u64`s). -/
def SendIndex.WIRE_SIZE : Nat := 8 * 10

/-- `SendIndex::write` from `src/relayd/wire.rs`: ten big-endian `u64`s. -/
def SendIndex.write (relay_stream_id net_seq_num : Nat) (index : Index) :
    List Nat :=
  u64be relay_stream_id ++ u64be net_seq_num ++
    u64be index.packet_size_bits ++ u64be index.content_size_bits ++
    u64be index.timestamp_begin ++ u64be index.timestamp_end ++
    u64be index.events_discarded ++ u64be index.stream_id ++
    u64be index.stream_instance_id ++ u64be index.packet_seq_num

/-- `CreateSessionError` from `src/relayd/wire.rs` (the pure variants; the
`Io` variant cannot occur when writing into an in-memory buffer). -/
inductive CreateSessionError where
  | SessionNameLen
  | HostnameLen
deriving DecidableEq

/-- `AddStreamError` from `src/relayd/wire.rs` (the pure variants). -/
inductive AddStreamError where
  | ChannelNameLen
  | PathnameLen
deriving DecidableEq

/-- `CreateSession::NAME_MAX` (RELAYD_COMM_LTTNG_NAME_MAX_2_4). -/
def CreateSession.NAME_MAX : Nat := 255

/-- `CreateSession::HOST_NAME_MAX` (RELAYD_COMM_LTTNG_HOST_NAME_MAX_2_4). -/
def CreateSession.HOST_NAME_MAX : Nat := 64

/-- `CreateSession::write` from `src/relayd/wire.rs`: rejects a session
name of `NAME_MAX` or more bytes and a hostname of `HOST_NAME_MAX` or
more bytes before writing anything; otherwise writes the NUL-padded
fixed-width body followed by `live_timer` and `snapshot = 0`. -/
def CreateSession.write (session_name hostname : List Nat)
    (live_timer : Nat) : Except CreateSessionError (List Nat) :=
  if CreateSession.NAME_MAX ≤ session_name.length then
    .error .SessionNameLen
  else if CreateSession.HOST_NAME_MAX ≤ hostname.length then
    .error .HostnameLen
  else
    .ok (session_name ++
      List.replicate (CreateSession.NAME_MAX - session_name.length) 0 ++
      hostname ++
      List.replicate (CreateSession.HOST_NAME_MAX - hostname.length) 0 ++
      u32be live_timer ++ u32be 0)

/-- `AddStream::STREAM_NAME_MAX` (RELAYD_COMM_DEFAULT_STREAM_NAME_LEN). -/
def AddStream.STREAM_NAME_MAX : Nat := 264

/-- `AddStream::PATH_MAX` (RELAYD_COMM_LTTNG_PATH_MAX). -/
def AddStream.PATH_MAX : Nat := 4096

/-- `AddStream::write` from `src/relayd/wire.rs`: rejects a channel name
of `STREAM_NAME_MAX` or more bytes and a pathname of `PATH_MAX` or more
bytes before writing anything; otherwise writes the NUL-padded
fixed-width body followed by `tracefile_size = 0`, `tracefile_count = 0`. -/
def AddStream.write (channel_name pathname : List Nat) :
    Except AddStreamError (List Nat) :=
  if AddStream.STREAM_NAME_MAX ≤ channel_name.length then
    .error .ChannelNameLen
  else if AddStream.PATH_MAX ≤ pathname.length then
    .error .PathnameLen
  else
    .ok (channel_name ++
      List.replicate (AddStream.STREAM_NAME_MAX - channel_name.length) 0 ++
      pathname ++
      List.replicate (AddStream.PATH_MAX - pathname.length) 0 ++
      u64be 0 ++ u64be 0)

/-! ## relayd client state: `src/relayd/mod.rs` -/

/-- `NetworkSequenceNumber::increment` from `src/relayd/wire.rs`:
`self.0 = self.0.saturating_add(1)` on a `u64`. -/
def nsnIncrement (n : Nat) : Nat := min (n + 1) U64_MAX

/-- Lookup in the `BTreeMap<StreamId, NetworkSequenceNumber>` modelled as
an association list with unique keys. -/
def mapLookup : List (Nat × Nat) → Nat → Option Nat
  | [], _ => none
  | (k, v) :: rest, key => if k = key then some v else mapLookup rest key

/-- `BTreeMap::insert`: replaces the value at an existing key, otherwise
appends the binding. -/
def mapInsert : List (Nat × Nat) → Nat → Nat → List (Nat × Nat)
  | [], key, val => [(key, val)]
  | (k, v) :: rest, key, val =>
    if k = key then (key, val) :: rest
    else (k, v) :: mapInsert rest key val

theorem mapLookup_mapInsert (m : List (Nat × Nat)) (key val : Nat) :
    mapLookup (mapInsert m key val) key = some val := by
  induction m with
  | nil => simp [mapInsert, mapLookup]
  | cons kv rest ih =>
    obtain ⟨k, v⟩ := kv
    by_cases h : k = key
    · simp [mapInsert, h, mapLookup]
    · simp [mapInsert, h, mapLookup, ih]

/-- `StreamableState` from `src/relayd/mod.rs` (the `pathname` is kept as
raw bytes; the TCP sockets and write buffer live outside the pure
state). -/
structure StreamableState where
  session_id : Nat
  pathname : List Nat
  metadata_stream : Nat
  data_streams : List (Nat × Nat)
deriving DecidableEq

/-- `RelaydClientError` from `src/relayd/mod.rs` (the variant reachable
from the pure model of `send_indexed_data`). -/
inductive RelaydClientError where
  | InvalidStreamId (id : Nat)
deriving DecidableEq

/-- `RelaydClient::<StreamableState>::add_data_stream` from
`src/relayd/mod.rs`, restricted to its state effect: the relayd-assigned
`stream_id` (returned by the `AddStream` exchange on the wire) is
inserted into `data_streams` with `NetworkSequenceNumber::default()`,
which is 0. -/
def add_data_stream (st : StreamableState) (stream_id : Nat) :
    StreamableState :=
  { st with data_streams := mapInsert st.data_streams stream_id 0 }

/-- The bytes `send_data` writes to the data socket: the `DataHeader`
followed immediately by the payload. -/
def send_data (stream_id net_seq_num : Nat) (data : List Nat) : List Nat :=
  DataHeader.write stream_id net_seq_num data.length ++ data

/-- The bytes `send_index` writes to the control socket: the
`ControlHeader` for `SendIndex` followed by the `SendIndex` body. -/
def send_index (stream_id net_seq_num : Nat) (index : Index) : List Nat :=
  ControlHeader.write Command.SendIndex SendIndex.WIRE_SIZE ++
    SendIndex.write stream_id net_seq_num index

/-- What a successful `send_indexed_data` put on the two sockets. -/
structure SendIndexedEffects where
  data_socket : List Nat
  control_socket : List Nat
deriving DecidableEq

/-- `RelaydClient::<StreamableState>::send_indexed_data` from
`src/relayd/mod.rs`: look up the stream's sequence number (error
`InvalidStreamId` if absent, leaving the state untouched and writing
nothing), send the data record then the index record with that number,
then increment the stored number (saturating). -/
def send_indexed_data (st : StreamableState) (stream_id : Nat)
    (index : Index) (data : List Nat) :
    StreamableState × Except RelaydClientError SendIndexedEffects :=
  match mapLookup st.data_streams stream_id with
  | none => (st, .error (.InvalidStreamId stream_id))
  | some net_seq_num =>
    let dataBytes := send_data stream_id net_seq_num data
    let ctrlBytes := send_index stream_id net_seq_num index
    let st' :=
      match mapLookup st.data_streams stream_id with
      | some nsn =>
        { st with
          data_streams := mapInsert st.data_streams stream_id
            (nsnIncrement nsn) }
      | none => st
    (st', .ok { data_socket := dataBytes, control_socket := ctrlBytes })

theorem U64_MAX_eq : U64_MAX = 18446744073709551615 := by
  norm_num [U64_MAX]

theorem nsnIncrement_lt (n : Nat) (h : n < U64_MAX) :
    nsnIncrement n = n + 1 := by
  rw [U64_MAX_eq] at h
  rw [nsnIncrement, U64_MAX_eq]
  omega

theorem send_indexed_data_ok (st : StreamableState) (stream_id : Nat)
    (index : Index) (data : List Nat) (st' : StreamableState)
    (eff : SendIndexedEffects)
    (h : send_indexed_data st stream_id index data = (st', .ok eff)) :
    ∃ n, mapLookup st.data_streams stream_id = some n ∧
      eff = { data_socket := send_data stream_id n data,
              control_socket := send_index stream_id n index } ∧
      st' = { st with
              data_streams := mapInsert st.data_streams stream_id
                (nsnIncrement n) } := by
  unfold send_indexed_data at h
  rcases hl : mapLookup st.data_streams stream_id with _ | n <;>
    simp only [hl] at h
  · simp at h
  · simp only [Prod.mk.injEq, Except.ok.injEq] at h
    obtain ⟨h1, h2⟩ := h
    exact ⟨n, rfl, h2.symm, h1.symm⟩

/-- C4: a data stream registered via `add_data_stream` starts with
sequence number 0; each successful `send_indexed_data` on a stream writes
the data header and index with the stream's current number `n` and leaves
the stored number at `saturating_add 1` (so exactly `n + 1` below
`u64::MAX`); hence two consecutive successful sends below saturation
carry `n` then `n + 1`, strictly increasing from 0. -/
theorem C4_monotone_seq_numbers :
    (∀ (st : StreamableState) (stream_id : Nat),
      mapLookup (add_data_stream st stream_id).data_streams stream_id =
        some 0) ∧
    (∀ (st : StreamableState) (stream_id : Nat) (index : Index)
      (data : List Nat) (st' : StreamableState) (eff : SendIndexedEffects),
      send_indexed_data st stream_id index data = (st', .ok eff) →
      ∃ n, mapLookup st.data_streams stream_id = some n ∧
        eff.data_socket = send_data stream_id n data ∧
        eff.control_socket = send_index stream_id n index ∧
        mapLookup st'.data_streams stream_id = some (nsnIncrement n) ∧
        (n < U64_MAX → nsnIncrement n = n + 1)) ∧
    (∀ (st : StreamableState) (stream_id : Nat) (i1 i2 : Index)
      (d1 d2 : List Nat) (st1 st2 : StreamableState)
      (e1 e2 : SendIndexedEffects) (n : Nat),
      send_indexed_data st stream_id i1 d1 = (st1, .ok e1) →
      send_indexed_data st1 stream_id i2 d2 = (st2, .ok e2) →
      mapLookup st.data_streams stream_id = some n →
      n < U64_MAX →
      e1.data_socket = send_data stream_id n d1 ∧
      e2.data_socket = send_data stream_id (n + 1) d2) := by
  refine ⟨?_, ?_, ?_⟩
  · intro st stream_id
    unfold add_data_stream
    exact mapLookup_mapInsert st.data_streams stream_id 0
  · intro st stream_id index data st' eff h
    obtain ⟨n, hn, heff, hst⟩ := send_indexed_data_ok st stream_id index
      data st' eff h
    refine ⟨n, hn, by rw [heff], by rw [heff], ?_, fun hlt =>
      nsnIncrement_lt n hlt⟩
    rw [hst]
    exact mapLookup_mapInsert st.data_streams stream_id (nsnIncrement n)
  · intro st stream_id i1 i2 d1 d2 st1 st2 e1 e2 n h1 h2 hn hlt
    obtain ⟨m, hm, heff1, hst1⟩ := send_indexed_data_ok st stream_id i1
      d1 st1 e1 h1
    rw [hn] at hm
    obtain rfl : n = m := Option.some.inj hm
    obtain ⟨m2, hm2, heff2, _⟩ := send_indexed_data_ok st1 stream_id i2
      d2 st2 e2 h2
    rw [hst1, mapLookup_mapInsert, nsnIncrement_lt n hlt] at hm2
    obtain rfl : n + 1 = m2 := Option.some.inj hm2
    exact ⟨by rw [heff1], by rw [heff2]⟩

def stEmpty : StreamableState :=
  { session_id := 1, pathname := [], metadata_stream := 2,
    data_streams := [] }

def idxW : Index :=
  { packet_size_bits := 1024, content_size_bits := 800,
    timestamp_begin := 1000, timestamp_end := 2000,
    events_discarded := U64_MAX, stream_id := 0,
    stream_instance_id := U64_MAX, packet_seq_num := U64_MAX }

def stReg : StreamableState := add_data_stream stEmpty 5

def stW1 : StreamableState :=
  { session_id := 1, pathname := [], metadata_stream := 2,
    data_streams := [(5, 1)] }

def effW1 : SendIndexedEffects :=
  { data_socket := send_data 5 0 [9], control_socket := send_index 5 0 idxW }

def stW2 : StreamableState :=
  { session_id := 1, pathname := [], metadata_stream := 2,
    data_streams := [(5, 2)] }

def effW2 : SendIndexedEffects :=
  { data_socket := send_data 5 1 [8], control_socket := send_index 5 1 idxW }

/-- Witness for C4: register stream 5 and send two packets; the sends
carry sequence numbers 0 then 1. -/
theorem C4_monotone_seq_numbers_witness :
    mapLookup (add_data_stream stEmpty 5).data_streams 5 = some 0 ∧
    (∃ n, mapLookup stReg.data_streams 5 = some n ∧
      effW1.data_socket = send_data 5 n [9] ∧
      effW1.control_socket = send_index 5 n idxW ∧
      mapLookup stW1.data_streams 5 = some (nsnIncrement n) ∧
      (n < U64_MAX → nsnIncrement n = n + 1)) ∧
    (effW1.data_socket = send_data 5 0 [9] ∧
      effW2.data_socket = send_data 5 (0 + 1) [8]) :=
  ⟨C4_monotone_seq_numbers.1 stEmpty 5,
   C4_monotone_seq_numbers.2.1 stReg 5 idxW [9] stW1 effW1 rfl,
   C4_monotone_seq_numbers.2.2 stReg 5 idxW idxW [9] [8] stW1 stW2
      effW1 effW2 0 rfl rfl (by decide) (by decide)⟩

/-- C10 (implicit): calling `send_indexed_data` with a stream id that is
not a key of `data_streams` returns `InvalidStreamId` with the client
state unchanged and nothing written to either socket (the error carries
no socket effects; no sequence number is created or incremented). -/
theorem C10_invalid_stream_id (st : StreamableState) (stream_id : Nat)
    (index : Index) (data : List Nat)
    (h : mapLookup st.data_streams stream_id = none) :
    send_indexed_data st stream_id index data =
      (st, .error (.InvalidStreamId stream_id)) := by
  unfold send_indexed_data
  simp only [h]

/-- Witness for C10 on a client with no registered data streams. -/
theorem C10_invalid_stream_id_witness :
    send_indexed_data stEmpty 3 idxW [7] =
      (stEmpty, .error (.InvalidStreamId 3)) :=
  C10_invalid_stream_id stEmpty 3 idxW [7] rfl

/-- C8: `CreateSession::write` rejects session names of 255 or more bytes
with `SessionNameLen` and hostnames of 64 or more bytes with
`HostnameLen` (checked in that order, before anything is written — the
error result carries no bytes); strictly shorter names produce the
NUL-padded fixed-width body. `AddStream::write` analogously rejects
channel names of 264 or more bytes and pathnames of 4096 or more bytes,
and accepts strictly shorter ones. -/
theorem C8_name_length_bounds :
    (∀ (session_name hostname : List Nat) (live_timer : Nat),
      CreateSession.NAME_MAX ≤ session_name.length →
      CreateSession.write session_name hostname live_timer =
        .error .SessionNameLen) ∧
    (∀ (session_name hostname : List Nat) (live_timer : Nat),
      session_name.length < CreateSession.NAME_MAX →
      CreateSession.HOST_NAME_MAX ≤ hostname.length →
      CreateSession.write session_name hostname live_timer =
        .error .HostnameLen) ∧
    (∀ (session_name hostname : List Nat) (live_timer : Nat),
      session_name.length < CreateSession.NAME_MAX →
      hostname.length < CreateSession.HOST_NAME_MAX →
      CreateSession.write session_name hostname live_timer =
        .ok (session_name ++
          List.replicate (CreateSession.NAME_MAX - session_name.length) 0 ++
          hostname ++
          List.replicate (CreateSession.HOST_NAME_MAX - hostname.length) 0 ++
          u32be live_timer ++ u32be 0)) ∧
    (∀ (channel_name pathname : List Nat),
      AddStream.STREAM_NAME_MAX ≤ channel_name.length →
      AddStream.write channel_name pathname = .error .ChannelNameLen) ∧
    (∀ (channel_name pathname : List Nat),
      channel_name.length < AddStream.STREAM_NAME_MAX →
      AddStream.PATH_MAX ≤ pathname.length →
      AddStream.write channel_name pathname = .error .PathnameLen) ∧
    (∀ (channel_name pathname : List Nat),
      channel_name.length < AddStream.STREAM_NAME_MAX →
      pathname.length < AddStream.PATH_MAX →
      AddStream.write channel_name pathname =
        .ok (channel_name ++
          List.replicate (AddStream.STREAM_NAME_MAX - channel_name.length)
            0 ++
          pathname ++
          List.replicate (AddStream.PATH_MAX - pathname.length) 0 ++
          u64be 0 ++ u64be 0)) := by
  refine ⟨?_, ?_, ?_, ?_, ?_, ?_⟩
  · intro sn hn lt h
    unfold CreateSession.write
    rw [if_pos h]
  · intro sn hn lt h1 h2
    unfold CreateSession.write
    rw [if_neg (by omega), if_pos h2]
  · intro sn hn lt h1 h2
    unfold CreateSession.write
    rw [if_neg (by omega), if_neg (by omega)]
  · intro cn pn h
    unfold AddStream.write
    rw [if_pos h]
  · intro cn pn h1 h2
    unfold AddStream.write
    rw [if_neg (by omega), if_pos h2]
  · intro cn pn h1 h2
    unfold AddStream.write
    rw [if_neg (by omega), if_neg (by omega)]

/-- Witness for C8 at the documented boundary lengths: 255/254-byte
session names, 64/63-byte hostnames, 264/263-byte channel names,
4096/4095-byte pathnames. -/
theorem C8_name_length_bounds_witness :
    CreateSession.write (List.replicate 255 97) [] 0 =
      .error .SessionNameLen ∧
    CreateSession.write (List.replicate 254 97) (List.replicate 64 98) 0 =
      .error .HostnameLen ∧
    CreateSession.write (List.replicate 254 97) (List.replicate 63 98) 0 =
      .ok (List.replicate 254 97 ++
        List.replicate (CreateSession.NAME_MAX - 254) 0 ++
        List.replicate 63 98 ++
        List.replicate (CreateSession.HOST_NAME_MAX - 63) 0 ++
        u32be 0 ++ u32be 0) ∧
    AddStream.write (List.replicate 264 99) [] = .error .ChannelNameLen ∧
    AddStream.write (List.replicate 263 99) (List.replicate 4096 100) =
      .error .PathnameLen ∧
    AddStream.write (List.replicate 263 99) (List.replicate 4095 100) =
      .ok (List.replicate 263 99 ++
        List.replicate (AddStream.STREAM_NAME_MAX - 263) 0 ++
        List.replicate 4095 100 ++
        List.replicate (AddStream.PATH_MAX - 4095) 0 ++
        u64be 0 ++ u64be 0) :=
  ⟨C8_name_length_bounds.1 (List.replicate 255 97) [] 0
      (by rw [List.length_replicate]; exact Nat.le.refl),
   C8_name_length_bounds.2.1 (List.replicate 254 97)
      (List.replicate 64 98) 0
      (by rw [List.length_replicate]; exact Nat.lt_succ_self 254)
      (by rw [List.length_replicate]; exact Nat.le.refl),
   by
    have := C8_name_length_bounds.2.2.1 (List.replicate 254 97)
      (List.replicate 63 98) 0
      (by rw [List.length_replicate]; exact Nat.lt_succ_self 254)
      (by rw [List.length_replicate]; exact Nat.lt_succ_self 63)
    simp only [List.length_replicate] at this
    exact this,
   C8_name_length_bounds.2.2.2.1 (List.replicate 264 99) []
      (by rw [List.length_replicate]; exact Nat.le.refl),
   C8_name_length_bounds.2.2.2.2.1 (List.replicate 263 99)
      (List.replicate 4096 100)
      (by rw [List.length_replicate]; exact Nat.lt_succ_self 263)
      (by rw [List.length_replicate]; exact Nat.le.refl),
   by
    have := C8_name_length_bounds.2.2.2.2.2 (List.replicate 263 99)
      (List.replicate 4095 100)
      (by rw [List.length_replicate]; exact Nat.lt_succ_self 263)
      (by rw [List.length_replicate]; exact Nat.lt_succ_self 4095)
    simp only [List.length_replicate] at this
    exact this⟩

/-! ## Stream mapping configuration: `StreamMapping::from_str` in
`src/main.rs` -/

/-- Rust `char::is_whitespace` (the Unicode White_Space property), used
by `str::trim`. -/
def rustIsWhitespace (c : Char) : Bool :=
  c.toNat = 0x09 || c.toNat = 0x0A || c.toNat = 0x0B || c.toNat = 0x0C ||
  c.toNat = 0x0D || c.toNat = 0x20 || c.toNat = 0x85 || c.toNat = 0xA0 ||
  c.toNat = 0x1680 || (0x2000 ≤ c.toNat && c.toNat ≤ 0x200A) ||
  c.toNat = 0x2028 || c.toNat = 0x2029 || c.toNat = 0x202F ||
  c.toNat = 0x205F || c.toNat = 0x3000

/-- Rust `str::trim`: strip whitespace from both ends. -/
def rustTrim (s : List Char) : List Char :=
  ((s.dropWhile rustIsWhitespace).reverse.dropWhile rustIsWhitespace).reverse

/-- Rust `str::split(sep)`: `n` separators yield `n + 1` segments,
including empty ones. -/
def splitOnChar (sep : Char) : List Char → List (List Char)
  | [] => [[]]
  | c :: rest =>
    let r := splitOnChar sep rest
    if c = sep then [] :: r
    else
      match r with
      | [] => [[c]]
      | h :: t => (c :: h) :: t

/-- Accumulate decimal digits; fails on the first non-digit
(`u64::from_str` digit loop). -/
def parseDigitsGo : Nat → List Char → Option Nat
  | acc, [] => some acc
  | acc, c :: rest =>
    if c.isDigit then parseDigitsGo (acc * 10 + (c.toNat - 48)) rest
    else none

/-- Rust `str::parse::<u64>()`: an optional leading `+`, then one or more
ASCII digits, and the value must fit in a `u64`. -/
def parseU64 (s : List Char) : Option Nat :=
  let digits :=
    match s with
    | '+' :: rest => rest
    | _ => s
  match digits with
  | [] => none
  | _ =>
    match parseDigitsGo 0 digits with
    | some v => if v < 2 ^ 64 then some v else none
    | none => none

/-- `s` stripped of the leading pattern `pat`, when `pat` is a prefix. -/
def stripPrefixSeq : List Char → List Char → Option (List Char)
  | [], s => some s
  | _ :: _, [] => none
  | p :: ps, c :: cs => if p = c then stripPrefixSeq ps cs else none

/-- Rust `str::contains(pat)`: `pat` occurs as a contiguous substring. -/
def containsSeq (pat : List Char) : List Char → Bool
  | [] => (stripPrefixSeq pat []).isSome
  | c :: rest =>
    (stripPrefixSeq pat (c :: rest)).isSome || containsSeq pat rest

/-- Fuel-indexed left-to-right non-overlapping replacement; with
`fuel ≥ s.length` and a non-empty pattern this is Rust
`str::replace(pat, rep)`. -/
def replaceAllGo (pat rep : List Char) : Nat → List Char → List Char
  | _, [] => []
  | 0, s => s
  | fuel + 1, c :: rest =>
    match stripPrefixSeq pat (c :: rest) with
    | some remainder => rep ++ replaceAllGo pat rep fuel remainder
    | none => c :: replaceAllGo pat rep fuel rest

/-- Rust `str::replace(pat, rep)` (used only with the non-empty
`$DATETIME` token). -/
def replaceAll (pat rep s : List Char) : List Char :=
  replaceAllGo pat rep s.length s

/-- The `$DATETIME` pathname token of `src/main.rs`. -/
def DATETIME_TOKEN : List Char := "$DATETIME".toList

/-- `StreamMapping` from `src/main.rs`; the `BTreeSet<u64>` is a
`Finset`. -/
structure StreamMapping where
  session_name : List Char
  pathname : List Char
  stream_ids : Finset Nat
deriving DecidableEq

/-- The segment computation at the top of `StreamMapping::from_str`:
`s.trim().split(':').filter(|s| !s.is_empty())`. -/
def mappingParts (s : List Char) : List (List Char) :=
  (splitOnChar ':' (rustTrim s)).filter (fun p => !p.isEmpty)

/-- The pathname computation of `StreamMapping::from_str`: if the segment
contains `$DATETIME`, every occurrence is replaced with the formatted
timestamp, otherwise the segment is kept as-is. The timestamp string
itself (`Utc::now().format("%Y%m%d-%H%M%S")` from the external chrono
crate) is passed in as `datetime`: it is produced once, at parse time. -/
def substDatetime (datetime pathname_str : List Char) : List Char :=
  if containsSeq DATETIME_TOKEN pathname_str then
    replaceAll DATETIME_TOKEN datetime pathname_str
  else pathname_str

/-- The id-list fold of `StreamMapping::from_str`
(`collect::<Result<BTreeSet<u64>, _>>` over `trim().parse::<u64>()`). -/
def parseIds : List (List Char) → Option (List Nat)
  | [] => some []
  | seg :: rest =>
    match parseU64 (rustTrim seg), parseIds rest with
    | some v, some vs => some (v :: vs)
    | _, _ => none

/-- `StreamMapping::from_str` from `src/main.rs`, with the formatted
parse-time UTC timestamp passed as `datetime` (chrono is external to the
repository). Errors are collapsed to `none` (the source returns a fixed
message string). -/
def StreamMapping.from_str (datetime s : List Char) :
    Option StreamMapping :=
  match mappingParts s with
  | [session_name, pathname_str, ids] =>
    let pathname := substDatetime datetime pathname_str
    if ids = "ANY".toList then
      some { session_name := session_name, pathname := pathname,
             stream_ids := ∅ }
    else
      match parseIds ((splitOnChar ',' ids).filter (fun p => !p.isEmpty))
        with
      | some vs =>
        some { session_name := session_name, pathname := pathname,
               stream_ids := vs.toFinset }
      | none => none
  | _ => none

theorem replaceAllGo_nil (pat rep : List Char) (fuel : Nat) :
    replaceAllGo pat rep fuel [] = [] := by
  cases fuel <;> rfl

theorem replaceAllGo_cons_none (pat rep : List Char) (fuel : Nat)
    (c : Char) (rest : List Char)
    (h : stripPrefixSeq pat (c :: rest) = none) :
    replaceAllGo pat rep (fuel + 1) (c :: rest) =
      c :: replaceAllGo pat rep fuel rest := by
  simp only [replaceAllGo, h]

theorem replaceAllGo_cons_some (pat rep : List Char) (fuel : Nat)
    (c : Char) (rest r : List Char)
    (h : stripPrefixSeq pat (c :: rest) = some r) :
    replaceAllGo pat rep (fuel + 1) (c :: rest) =
      rep ++ replaceAllGo pat rep fuel r := by
  simp only [replaceAllGo, h]

theorem replaceAll_p_dash_token (d : List Char) :
    replaceAll DATETIME_TOKEN d ("p-$DATETIME".toList) =
      "p-".toList ++ d := by
  show replaceAllGo DATETIME_TOKEN d 11 ("p-$DATETIME".toList) =
    "p-".toList ++ d
  rw [show ("p-$DATETIME".toList) =
    'p' :: '-' :: '$' :: "DATETIME".toList from by decide]
  rw [show (11 : Nat) = 10 + 1 from rfl,
    replaceAllGo_cons_none _ _ _ _ _ (by decide)]
  rw [show (10 : Nat) = 9 + 1 from rfl,
    replaceAllGo_cons_none _ _ _ _ _ (by decide)]
  rw [show (9 : Nat) = 8 + 1 from rfl,
    replaceAllGo_cons_some _ _ _ _ _ [] (by decide)]
  rw [replaceAllGo_nil, List.append_nil]
  rfl

/-- C9: `StreamMapping` parsing. Parsing `s:p:1,2,3` (for any parse-time
timestamp) yields session name `s`, pathname `p` and stream ids
`{1, 2, 3}`; any mapping whose (filtered) segments are
`[name, path, ANY]` parses to an empty stream-id set with the pathname
substitution applied; and parsing `s:p-$DATETIME:1` replaces the token
with the parse-time timestamp, yielding pathname `p-` followed by the
timestamp. The timestamp parameter stands for the single
`Utc::now().format("%Y%m%d-%H%M%S")` string produced at parse time. -/
theorem C9_stream_mapping_parse :
    (∀ datetime, StreamMapping.from_str datetime "s:p:1,2,3".toList =
      some { session_name := "s".toList, pathname := "p".toList,
             stream_ids := ({1, 2, 3} : Finset Nat) }) ∧
    (∀ datetime s session_name pathname_str,
      mappingParts s = [session_name, pathname_str, "ANY".toList] →
      StreamMapping.from_str datetime s =
        some { session_name := session_name,
               pathname := substDatetime datetime pathname_str,
               stream_ids := (∅ : Finset Nat) }) ∧
    (∀ datetime,
      StreamMapping.from_str datetime "s:p-$DATETIME:1".toList =
        some { session_name := "s".toList,
               pathname := "p-".toList ++ datetime,
               stream_ids := ({1} : Finset Nat) }) := by
  refine ⟨?_, ?_, ?_⟩
  · intro d
    have h1 : mappingParts "s:p:1,2,3".toList =
        ["s".toList, "p".toList, "1,2,3".toList] := by decide
    unfold StreamMapping.from_str
    simp only [h1]
    rw [if_neg (by decide)]
    have h2 : parseIds ((splitOnChar ',' "1,2,3".toList).filter
        (fun p => !p.isEmpty)) = some [1, 2, 3] := by decide
    simp only [h2]
    rw [show substDatetime d ("p".toList) = "p".toList from by
      unfold substDatetime; rw [if_neg (by decide)]]
    rw [show ([1, 2, 3] : List Nat).toFinset = ({1, 2, 3} : Finset Nat)
      from by decide]
  · intro d s session_name pathname_str h
    unfold StreamMapping.from_str
    simp only [h]
    simp
  · intro d
    have h1 : mappingParts "s:p-$DATETIME:1".toList =
        ["s".toList, "p-$DATETIME".toList, "1".toList] := by decide
    unfold StreamMapping.from_str
    simp only [h1]
    rw [if_neg (by decide)]
    have h2 : parseIds ((splitOnChar ',' "1".toList).filter
        (fun p => !p.isEmpty)) = some [1] := by decide
    simp only [h2]
    rw [show substDatetime d ("p-$DATETIME".toList) = "p-".toList ++ d
      from by
        unfold substDatetime
        rw [if_pos (by decide)]
        exact replaceAll_p_dash_token d]
    rw [show ([1] : List Nat).toFinset = ({1} : Finset Nat) from by decide]

/-- Witness for C9 with a concrete parse-time timestamp and, for the
`ANY` part, the concrete mapping `a:b:ANY`. -/
theorem C9_stream_mapping_parse_witness :
    StreamMapping.from_str "20260101-120000".toList "s:p:1,2,3".toList =
      some { session_name := "s".toList, pathname := "p".toList,
             stream_ids := ({1, 2, 3} : Finset Nat) } ∧
    StreamMapping.from_str "20260101-120000".toList "a:b:ANY".toList =
      some { session_name := "a".toList,
             pathname := substDatetime "20260101-120000".toList
               "b".toList,
             stream_ids := (∅ : Finset Nat) } ∧
    StreamMapping.from_str "20260101-120000".toList
        "s:p-$DATETIME:1".toList =
      some { session_name := "s".toList,
             pathname := "p-".toList ++ "20260101-120000".toList,
             stream_ids := ({1} : Finset Nat) } :=
  ⟨C9_stream_mapping_parse.1 "20260101-120000".toList,
   C9_stream_mapping_parse.2.1 "20260101-120000".toList "a:b:ANY".toList
      "a".toList "b".toList (by decide),
   C9_stream_mapping_parse.2.2 "20260101-120000".toList⟩
